import Mathlib

/-!
Shallow embedding of the command-dispatch and navigation subsystem of
`bananadbg.py` (an interactive debugging console).  Python objects are
modelled as explicit Lean data; Python object identity is modelled by a
`Value` type with decidable equality whose constructors carry numeric
identities; output is modelled as explicit lists of lines, separated into
the standard stream and the error stream; a Python function that both
mutates state and may raise is modelled as returning the state reached
together with an optional fault.
-/

namespace Bananadbg

/-- A Python runtime value, up to identity: `Value.helper i` is the
`_Helper` object owned by the console with identity `i`; `Value.obj i` is
any other object with identity `i`.  Equality of `Value` models the Python
`is` identity test. -/
inductive Value where
  | helper (consoleId : Nat)
  | obj (id : Nat)
deriving DecidableEq, Repr

/-- A fault (a raised Python exception), carried as its printed detail. -/
abbrev Fault := String

/-- A module namespace: the `__dict__` of a module, as an association
list from names to values (keys unique by construction of the update
operations, insertion order preserved as in a Python dict). -/
abbrev Names := List (String × Value)

/-- Lookup in an association list: `d[k]` / `d.get(k)`. -/
def assocLookup {α : Type} : List (String × α) → String → Option α
  | [], _ => none
  | (k, v) :: rest, n => if k = n then some v else assocLookup rest n

/-- Python dict assignment `d[k] = v`: replace in place if the key is
present, otherwise append at the end. -/
def assocInsert {α : Type} : List (String × α) → String → α → List (String × α)
  | [], n, v => [(n, v)]
  | (k, w) :: rest, n, v =>
      if k = n then (n, v) :: rest else (k, w) :: assocInsert rest n v

/-- Python `del d[k]`: remove the (unique) entry for the key. -/
def assocErase {α : Type} : List (String × α) → String → List (String × α)
  | [], _ => []
  | (k, w) :: rest, n => if k = n then rest else (k, w) :: assocErase rest n

/-- Python `d.setdefault(k, v)`: insert only when the key is absent. -/

def assocSetdefault {α : Type} (d : List (String × α)) (n : String) (v : α) :
    List (String × α) :=
  match assocLookup d n with
  | some _ => d
  | none => assocInsert d n v

/-- A loaded module: its canonical name and its namespace dictionary. -/
structure Module where
  name : String
  dict : Names
deriving DecidableEq, Repr

/-- The `DebugConsole` state: `helperId` is the identity of the
`_Helper` object created in `__init__` (`self._helper`); `modulename` and
`module` start as `None` and are set by the `cd` command. -/
structure Console where
  helperId : Nat
  verbose : Bool
  modulename : Option String
  module : Option Module
deriving DecidableEq, Repr

/-- The `_Helper` value owned by this console (`self._helper`). -/
def Console.helperVal (c : Console) : Value :=
  Value.helper c.helperId

/-- The `locals` property getter: returns `self.module.__dict__`; raises
an attribute error when `self.module` is `None`. -/
def Console.locals (c : Console) : Except Fault Names :=
  match c.module with
  | none => Except.error "AttributeError: NoneType has no attribute __dict__"
  | some m => Except.ok m.dict

/-- The `locals` property setter: its body is `pass`, so any assigned
value is discarded and the console is unchanged. -/
def Console.setLocals (c : Console) (_value : Names) : Console :=
  c

/-- `add_helper`: setdefault of the name `help` to `self._helper` in the
current module namespace.  Only reachable with a current module set (the
getter would raise otherwise). -/
def Console.add_helper (c : Console) : Console :=
  match c.module with
  | none => c
  | some m =>
      { c with module := some { m with dict := assocSetdefault m.dict "help" c.helperVal } }

/-- `remove_helper`: delete the binding named `help` only when the bound
value is identical (Python `is`) to `self._helper`; the `object()`
default of `dict.get` can never be identical to it. -/
def Console.remove_helper (c : Console) : Console :=
  match c.module with
  | none => c
  | some m =>
      match assocLookup m.dict "help" with
      | none => c
      | some v =>
          if v = c.helperVal then
            { c with module := some { m with dict := assocErase m.dict "help" } }
          else c

/-- The result of running one command handler: the console state reached,
the lines written to the standard stream, and the fault raised (if any);
state mutated before the fault is kept, as in Python. -/
abbrev HandlerResult := Console × List String × Option Fault

/-- A registered command descriptor (the `Command` namedtuple): handler,
required argument names, optional argument names, docstring. -/
structure Command where
  func : Console → List String → HandlerResult
  reqargs : List String
  optargs : List String
  doc : Option String

/-- Result of `_check_args`: whether the arguments were accepted, plus
the lines printed to the standard stream and to the error stream. -/
structure CheckResult where
  ok : Bool
  stdout : List String
  stderr : List String
deriving DecidableEq, Repr

/-- Python `s.upper()` for the ASCII argument names appearing in
signatures, character by character. -/
def pyUpper (s : String) : String :=
  String.mk (s.data.map Char.toUpper)

/-- The usage line printed by `_check_args`: the word `Usage:`, the
command name, then one ` NAME` per required argument and one ` [NAME]`
per optional argument, in declaration order, all on one output line. -/
def usage_line (commandname : String) (cmd : Command) : String :=
  "Usage: " ++ commandname
    ++ String.join (cmd.reqargs.map (fun a => " " ++ pyUpper a))
    ++ String.join (cmd.optargs.map (fun a => " [" ++ pyUpper a ++ "]"))

/-- `DebugConsole._check_args`: too few arguments or too many arguments
print a complaint to the error stream and the usage line to the standard
stream and report failure; otherwise report success. -/
def check_args (commandname : String) (cmd : Command) (args : List String) :
    CheckResult :=
  if args.length < cmd.reqargs.length then
    { ok := false
      stdout := [usage_line commandname cmd]
      stderr := ["Missing arguments for " ++ commandname ++ "."] }
  else if args.length > cmd.reqargs.length + cmd.optargs.length then
    { ok := false
      stdout := [usage_line commandname cmd]
      stderr := ["Too many arguments for " ++ commandname ++ "."] }
  else
    { ok := true, stdout := [], stderr := [] }

/-- What one iteration of the `raw_input` loop does with a line read at
the primary prompt: either return the string to the surrounding
interpreter (fallback to evaluation) or go back to awaiting input. -/
inductive StepResult where
  | ret (s : String)
  | again
deriving DecidableEq, Repr

/-- Observable outcome of one iteration of the `raw_input` loop. -/
structure StepOut where
  result : StepResult
  console : Console
  stdout : List String
  stderr : List String
deriving DecidableEq, Repr

/-- One iteration of the loop in `DebugConsole.raw_input` for a line read
at the primary prompt, parametrised over the shell-style tokenizer
(`shlex.split`; `none` models the `ValueError` on malformed quoting) and
the command mapping.  `commandname, *args = shlex.split(string)` raises
`ValueError` on an empty token list, and `self.commands[commandname]`
raises `KeyError` for an unregistered name; both are caught and make the
function return the original string.  A fault from the handler is caught,
a diagnostic naming the command is printed to the error stream followed
by the traceback detail, and the loop continues. -/
def stepLine (tok : String → Option (List String))
    (cmds : List (String × Command)) (c : Console) (line : String) : StepOut :=
  match tok line with
  | none => { result := StepResult.ret line, console := c, stdout := [], stderr := [] }
  | some [] => { result := StepResult.ret line, console := c, stdout := [], stderr := [] }
  | some (name :: args) =>
      match assocLookup cmds name with
      | none => { result := StepResult.ret line, console := c, stdout := [], stderr := [] }
      | some cmd =>
          let chk := check_args name cmd args
          if chk.ok then
            match cmd.func c args with
            | (c2, out, none) =>
                { result := StepResult.again, console := c2, stdout := out, stderr := [] }
            | (c2, out, some f) =>
                { result := StepResult.again, console := c2, stdout := out
                  stderr := ["An exception occurred while running " ++ name ++ "!", f] }
          else
            { result := StepResult.again, console := c, stdout := chk.stdout
              stderr := chk.stderr }

/-- The initial value of the `modulename` parameter of `cd`: the first
argument when one is given, or the signature default `__main__`. -/
def cdTarget (args : List String) : String :=
  args.headD "__main__"

/-- The verbose line `cd` prints before acting, naming the requested
module. -/
def cdVerboseOut (c : Console) (args : List String) : List String :=
  if c.verbose then
    ["Importing " ++ cdTarget args ++ " and changing the current module to it"]
  else []

/-- The `cd` command body, parametrised over the external resolver
(`importlib.util.resolve_name`) and loader (`importlib.import_module`).
Resolution and loading run before any mutation; a fault from either
leaves the console exactly as it was (only the verbose line has been
printed).  On success the helper binding is removed from the module being
left (unless this is the first navigation), the new module and name are
committed, and the helper binding is installed into the new module. -/
def cd (resolve : String → Option String → Except Fault String)
    (load : String → Except Fault Module)
    (c : Console) (args : List String) : HandlerResult :=
  match resolve (cdTarget args) c.modulename with
  | Except.error e => (c, cdVerboseOut c args, some e)
  | Except.ok resolved =>
      match load resolved with
      | Except.error e => (c, cdVerboseOut c args, some e)
      | Except.ok m =>
          let c1 := if c.module.isSome then c.remove_helper else c
          let c2 := { c1 with module := some m, modulename := some resolved }
          (c2.add_helper, cdVerboseOut c args, none)

/-- The descriptor the `DebugConsole.command` decorator derives for `cd`:
after the implicit console parameter, the single parameter `modulename`
has a default, so `reqargs = []` and `optargs = ["modulename"]`. -/
def cdCommand (resolve : String → Option String → Except Fault String)
    (load : String → Except Fault Module) : Command :=
  { func := cd resolve load
    reqargs := []
    optargs := ["modulename"]
    doc := some "Change the current module." }

/-- The class-level command registry as seen from one console class:
`own` is the entry `commands` of the class `__dict__` itself (absent
until the first registration on that class); `parent` is the mapping the
name `commands` resolves to in the parent class.  For `DebugConsole`
itself `own` is `some` of its dict and `parent` is empty; for a subclass
that has not registered yet, `own` is `none`. -/
structure Registry where
  own : Option (List (String × Command))
  parent : List (String × Command)

/-- Registry lookup, the `collections.ChainMap` semantics: the own layer
is consulted first and the parent mapping only on a miss; a class with no
own layer sees exactly the parent mapping. -/
def Registry.lookup (r : Registry) (n : String) : Option Command :=
  match r.own with
  | none => assocLookup r.parent n
  | some layer =>
      match assocLookup layer n with
      | some cmd => some cmd
      | none => assocLookup r.parent n

/-- `DebugConsole.command` registration, registry part: when the class
has no own `commands` entry yet, a fresh empty layer chained to the
parent mapping is created first (`ChainMap({}, cls.commands)`); then the
descriptor is stored in the own layer under the function name. -/
def Registry.register (r : Registry) (name : String) (cmd : Command) : Registry :=
  let layer := match r.own with | none => [] | some l => l
  { own := some (assocInsert layer name cmd), parent := r.parent }

/-- Python `s.ljust(w)`: pad on the right with spaces to width `w`. -/
def ljust (s : String) (w : Nat) : String :=
  s ++ String.mk (List.replicate (w - s.length) ' ')

/-- Python rstrip with a single-space argument: drop trailing space
characters from the end of the string. -/
def rstripSpaces (s : String) : String :=
  String.mk ((s.data.reverse.dropWhile (fun ch => ch = ' ')).reverse)

/-- Helper for the Python slice `l[start::step]`: collect the elements at
`i`, `i + step`, `i + 2 * step`, ... while in range, with an explicit
recursion counter. -/
def sliceAux {α : Type} (l : List α) (step : Nat) : Nat → Nat → List α
  | _, 0 => []
  | i, fuel + 1 =>
      match l[i]? with
      | none => []
      | some x => x :: sliceAux l step (i + step) fuel

/-- The Python slice `l[start::step]` for `step ≥ 1`: a counter of
`l.length` steps suffices because each collected element has an index at
least as large as its position. -/
def pySlice {α : Type} (l : List α) (start step : Nat) : List α :=
  sliceAux l step start l.length

/-- The local `maxlen` of `_print_list`: the length of the longest name
(`max(map(len, stringlist))`; the Python `max` raises on an empty list,
so this is only meaningful for non-empty input). -/
def plMaxlen (stringlist : List String) : Nat :=
  List.foldl max 0 (stringlist.map String.length)

/-- The local `columns` of `_print_list`: the terminal width divided by
the column width, which is the longest name length plus two. -/
def plColumns (termWidth : Nat) (stringlist : List String) : Nat :=
  termWidth / (plMaxlen stringlist + 2)

/-- The local `rows` of `_print_list`: the number of names divided by the
column count, rounded up (`math.ceil`). -/
def plRows (termWidth : Nat) (stringlist : List String) : Nat :=
  (stringlist.length + plColumns termWidth stringlist - 1) / plColumns termWidth stringlist

/-- `_print_list(stringlist)`, parametrised over the terminal width
(`shutil.get_terminal_size().columns` is external): with fewer than two
columns each name is printed on its own line; otherwise `rows` lines are
produced, line `y` joining the slice `stringlist[y::rows]` left-justified
to the longest length with two-space separators and trailing spaces
stripped. -/
def print_list (termWidth : Nat) (stringlist : List String) : List String :=
  if plColumns termWidth stringlist < 2 then
    stringlist
  else
    (List.range (plRows termWidth stringlist)).map (fun y =>
      rstripSpaces (String.intercalate "  "
        ((pySlice stringlist y (plRows termWidth stringlist)).map
          (fun s => ljust s (plMaxlen stringlist)))))

/-- Witness fixture: a resolver that returns every name unchanged (the
behaviour of the external resolver on absolute names). -/
def resolveW : String → Option String → Except Fault String :=
  fun n _ => Except.ok n

/-- Witness fixture: a resolver that always fails with an import error. -/
def resolveFailW : String → Option String → Except Fault String :=
  fun _ _ => Except.error "ImportError: cannot resolve"

/-- Witness fixture: a concrete module for the entry unit. -/
def moduleW : Module :=
  { name := "__main__", dict := [("x", Value.obj 7)] }

/-- Witness fixture: a loader that knows only the entry unit. -/
def loadW : String → Except Fault Module :=
  fun n => if n = "__main__" then Except.ok moduleW
           else Except.error ("ModuleNotFoundError: " ++ n)

/-- Witness fixture: a console currently inside a module `pkg.mod` whose
namespace holds the binding installed by this console. -/
def consoleW : Console :=
  { helperId := 0
    verbose := false
    modulename := some "pkg.mod"
    module := some { name := "pkg.mod", dict := [("help", Value.helper 0)] } }

/-- Witness fixture: the `cd` descriptor over the fixture resolver and
loader. -/
def cdCommandW : Command :=
  cdCommand resolveW loadW

/-- Witness fixture: a tokenizer that always reports malformed quoting. -/
def tokFailW : String → Option (List String) :=
  fun _ => none

/-- Witness fixture: a tokenizer defined on the concrete lines the
witnesses feed it, splitting them on single spaces. -/
def tokSplitW : String → Option (List String) :=
  fun s =>
    if s = "boom" then some ["boom"]
    else if s = "frobnicate x y" then some ["frobnicate", "x", "y"]
    else none

/-- Witness fixture: a handler that always raises. -/
def failFuncW : Console → List String → HandlerResult :=
  fun c _ => (c, [], some "RuntimeError: boom")

/-- Witness fixture: a registered command whose handler always raises. -/
def failCmdW : Command :=
  { func := failFuncW, reqargs := [], optargs := [], doc := none }

/-- Witness fixture: a command mapping holding only the raising command. -/
def cmdsW : List (String × Command) :=
  [("boom", failCmdW)]

/-- Witness fixture: a registry with an own layer shadowing the parent
entry for the raising command. -/
def registryW : Registry :=
  { own := some [("boom", failCmdW)], parent := [("cd", cdCommandW)] }

/-- Lookup after dict assignment: the assigned key now maps to the new
value and every other key is unaffected. -/
theorem assocLookup_assocInsert {α : Type} (l : List (String × α)) (n m : String) (v : α) :
    assocLookup (assocInsert l n v) m = if n = m then some v else assocLookup l m := by
  induction l with
  | nil => simp [assocInsert, assocLookup]
  | cons hd tl ih =>
      obtain ⟨k, w⟩ := hd
      by_cases hk : k = n
      · simp only [assocInsert, if_pos hk, assocLookup]
        by_cases hm : n = m
        · simp [assocLookup, hm]
        · have hkm : ¬ k = m := by rw [hk]; exact hm
          simp [assocLookup, hm, hkm]
      · simp only [assocInsert, if_neg hk, assocLookup]
        by_cases hm : k = m
        · have hnm : ¬ n = m := fun h => hk (by rw [hm, ← h])
          simp [assocLookup, hm, hnm]
        · simp [assocLookup, hm, ih]

/-- Indexing the slice helper: position `k` of the collected list is the
source element at index `i + k * step`, as long as the counter allows it. -/
theorem sliceAux_getElem {α : Type} (l : List α) (step : Nat) :
    ∀ fuel i k, (sliceAux l step i fuel)[k]? =
      if k < fuel then l[i + k * step]? else none := by
  intro fuel
  induction fuel with
  | zero => intro i k; simp [sliceAux]
  | succ fuel ih =>
      intro i k
      cases hl : l[i]? with
      | none =>
          have hlen : l.length ≤ i := by
            by_contra hlt
            push_neg at hlt
            rw [List.getElem?_eq_getElem hlt] at hl
            exact Option.noConfusion hl
          have h2 : l[i + k * step]? = none := by
            apply List.getElem?_eq_none
            omega
          simp [sliceAux, hl, h2]
      | some x =>
          cases k with
          | zero => simp [sliceAux, hl]
          | succ k =>
              simp only [sliceAux, hl, List.getElem?_cons_succ]
              rw [ih (i + step) k]
              have harith : i + step + k * step = i + (k + 1) * step := by ring
              rw [harith]
              by_cases hkf : k < fuel
              · simp [hkf, Nat.succ_lt_succ hkf]
              · have : ¬ k + 1 < fuel + 1 := by omega
                simp [hkf, this]

/-- Indexing a Python slice `l[start::step]` at a position below the
source length reads the source at `start + k * step`. -/
theorem pySlice_getElem {α : Type} (l : List α) (start step k : Nat)
    (hk : k < l.length) :
    (pySlice l start step)[k]? = l[start + k * step]? := by
  unfold pySlice
  rw [sliceAux_getElem]
  simp [hk]

/-- C1: the `cd`-equivalent navigation is atomic: name resolution and
module loading run before any mutation, so when either of them faults,
the console still carries exactly the previous current name and the
previous current module. -/
theorem cd_atomic_on_failure
    (resolve : String → Option String → Except Fault String)
    (load : String → Except Fault Module) (c : Console) (args : List String)
    (e : Fault) (h : (cd resolve load c args).2.2 = some e) :
    (cd resolve load c args).1.modulename = c.modulename ∧
      (cd resolve load c args).1.module = c.module := by
  unfold cd at h ⊢
  rcases hres : resolve (cdTarget args) c.modulename with e1 | r
  · simp
  · rw [hres] at h
    rcases hload : load r with e2 | m
    · simp [hload]
    · simp [hload] at h

/-- Witness for C1 at a concrete failing resolver. -/
theorem cd_atomic_on_failure_w :
    (cd resolveFailW loadW consoleW []).1.modulename = consoleW.modulename ∧
      (cd resolveFailW loadW consoleW []).1.module = consoleW.module :=
  cd_atomic_on_failure resolveFailW loadW consoleW []
    "ImportError: cannot resolve" (by decide)

/-- C2: a fault raised by the handler of a dispatched command is caught
by the read loop: the loop reports the diagnostic naming the command
followed by the fault detail on the error stream and goes back to
awaiting input (it neither returns the line nor propagates the fault). -/
theorem handler_fault_isolated
    (tok : String → Option (List String)) (cmds : List (String × Command))
    (c : Console) (line name : String) (args : List String) (cmd : Command)
    (c2 : Console) (out : List String) (f : Fault)
    (htok : tok line = some (name :: args))
    (hcmd : assocLookup cmds name = some cmd)
    (hok : (check_args name cmd args).ok = true)
    (hfault : cmd.func c args = (c2, out, some f)) :
    stepLine tok cmds c line =
      { result := StepResult.again, console := c2, stdout := out
        stderr := ["An exception occurred while running " ++ name ++ "!", f] } := by
  simp [stepLine, htok, hcmd, hok, hfault]

/-- Witness for C2 at a concrete always-raising command. -/
theorem handler_fault_isolated_w :
    stepLine tokSplitW cmdsW consoleW "boom" =
      { result := StepResult.again, console := consoleW, stdout := []
        stderr := ["An exception occurred while running boom!", "RuntimeError: boom"] } :=
  handler_fault_isolated tokSplitW cmdsW consoleW "boom" "boom" [] failCmdW
    consoleW [] "RuntimeError: boom" (by simp [tokSplitW])
    (by simp [cmdsW, assocLookup]) (by decide) rfl

/-- C3: when tokenization fails or the first token is not a registered
command name, the loop returns the whole original line unchanged for the
general evaluator and prints nothing on either stream. -/
theorem fallback_passthrough
    (tok : String → Option (List String)) (cmds : List (String × Command))
    (c : Console) (line : String)
    (h : tok line = none ∨
      ∃ name args, tok line = some (name :: args) ∧ assocLookup cmds name = none) :
    stepLine tok cmds c line =
      { result := StepResult.ret line, console := c, stdout := [], stderr := [] } := by
  rcases h with h | ⟨name, args, htok, hcmd⟩
  · simp [stepLine, h]
  · simp [stepLine, htok, hcmd]

/-- Witness for C3 at a concrete unregistered command line. -/
theorem fallback_passthrough_w :
    stepLine tokSplitW cmdsW consoleW "frobnicate x y" =
      { result := StepResult.ret "frobnicate x y", console := consoleW
        stdout := [], stderr := [] } :=
  fallback_passthrough tokSplitW cmdsW consoleW "frobnicate x y"
    (Or.inr ⟨"frobnicate", ["x", "y"], by simp [tokSplitW], by simp [cmdsW, assocLookup]⟩)

/-- C4: validation fails exactly when the argument count is below the
required count or above required plus optional, and on failure the
printed usage line is the command name after the word `Usage:` followed
by each required name uppercased and then each optional name uppercased
and bracketed, in declaration order. -/
theorem check_args_arity_usage (name : String) (cmd : Command) (args : List String) :
    ((check_args name cmd args).ok = false ↔
      args.length < cmd.reqargs.length ∨
        cmd.reqargs.length + cmd.optargs.length < args.length) ∧
    ((check_args name cmd args).ok = false →
      (check_args name cmd args).stdout =
        ["Usage: " ++ name
          ++ String.join (cmd.reqargs.map (fun a => " " ++ pyUpper a))
          ++ String.join (cmd.optargs.map (fun a => " [" ++ pyUpper a ++ "]"))]) := by
  unfold check_args
  split_ifs with h1 h2 <;> constructor <;> simp [usage_line] <;> omega

/-- Witness for C4 at the concrete `cd` descriptor with two arguments. -/
theorem check_args_arity_usage_w :
    (check_args "cd" cdCommandW ["a", "b"]).ok = false ∧
      (check_args "cd" cdCommandW ["a", "b"]).stdout = ["Usage: cd [MODULENAME]"] := by
  refine ⟨(check_args_arity_usage "cd" cdCommandW ["a", "b"]).1.mpr (by decide), ?_⟩
  have h := (check_args_arity_usage "cd" cdCommandW ["a", "b"]).2
    ((check_args_arity_usage "cd" cdCommandW ["a", "b"]).1.mpr (by decide))
  rw [h]
  decide

/-- C5: registry layering is transparent: with an own layer present,
lookup returns the own-layer descriptor when the name is there and the
parent descriptor otherwise; registering never touches the parent
mapping, and after registering a name it is the one visible under that
name while every other name resolves as before. -/
theorem registry_layering (r : Registry) (layer : List (String × Command))
    (name n : String) (cmd : Command) :
    (r.own = some layer →
      (∀ d, assocLookup layer n = some d → r.lookup n = some d) ∧
      (assocLookup layer n = none → r.lookup n = assocLookup r.parent n)) ∧
    (r.register name cmd).parent = r.parent ∧
    (r.register name cmd).lookup n = (if name = n then some cmd else r.lookup n) := by
  refine ⟨?_, rfl, ?_⟩
  · intro hown
    constructor
    · intro d hd
      simp [Registry.lookup, hown, hd]
    · intro hnone
      simp [Registry.lookup, hown, hnone]
  · by_cases hn : name = n
    · cases hown : r.own <;>
        simp [Registry.register, Registry.lookup, hown, assocLookup_assocInsert, hn]
    · cases hown : r.own <;>
        simp [Registry.register, Registry.lookup, hown, assocLookup_assocInsert, hn,
          assocLookup]

/-- Witness for C5 at a concrete two-layer registry. -/
theorem registry_layering_w :
    registryW.lookup "boom" = some failCmdW ∧
      (registryW.register "ls" failCmdW).parent = registryW.parent := by
  have h := registry_layering registryW [("boom", failCmdW)] "ls" "boom" failCmdW
  exact ⟨(h.1 rfl).1 failCmdW (by simp [assocLookup]), h.2.1⟩

/-- C6: the helper binding is installed by setdefault, so a pre-existing
binding named `help` is never overwritten; and on navigating away the
binding is removed exactly when the bound value is still identical to the
helper object this console installed. -/
theorem helper_binding_guarded (c : Console) (m : Module)
    (hmod : c.module = some m) :
    ((∃ v, assocLookup m.dict "help" = some v) → c.add_helper = c) ∧
    (assocLookup m.dict "help" = none →
      c.add_helper =
        { c with module := some { m with dict := assocInsert m.dict "help" c.helperVal } }) ∧
    (∀ v, assocLookup m.dict "help" = some v → v ≠ c.helperVal →
      c.remove_helper = c) ∧
    (assocLookup m.dict "help" = none → c.remove_helper = c) ∧
    (assocLookup m.dict "help" = some c.helperVal →
      c.remove_helper =
        { c with module := some { m with dict := assocErase m.dict "help" } }) := by
  obtain ⟨mname, mdict⟩ := m
  obtain ⟨hid, vb, cname, cmod⟩ := c
  obtain rfl : cmod = some ⟨mname, mdict⟩ := hmod
  refine ⟨?_, ?_, ?_, ?_, ?_⟩
  · rintro ⟨v, hv⟩
    simp [Console.add_helper, assocSetdefault, hv]
  · intro hnone
    simp [Console.add_helper, assocSetdefault, hnone]
  · intro v hv hne
    simp [Console.remove_helper, hv, hne]
  · intro hnone
    simp [Console.remove_helper, hnone]
  · intro hv
    simp [Console.remove_helper, hv]

/-- Witness for C6 at a concrete console whose module namespace holds its
own helper binding. -/
theorem helper_binding_guarded_w :
    consoleW.add_helper = consoleW ∧
      consoleW.remove_helper =
        { consoleW with module := some { name := "pkg.mod", dict := [] } } := by
  have h := helper_binding_guarded consoleW
    { name := "pkg.mod", dict := [("help", Value.helper 0)] } rfl
  refine ⟨h.1 ⟨Value.helper 0, by simp [assocLookup]⟩, ?_⟩
  have h5 := h.2.2.2.2 (by decide)
  rw [h5]
  decide

/-- C7: the layout of `_print_list`: with fewer than two columns fitting
the terminal it is one name per line; otherwise it has exactly
`ceil(length / columns)` rows, row `y` is the two-space join of the slice
`stringlist[y::rows]` padded to the longest length with trailing spaces
stripped, name `i` sits in row `i mod rows` at column `i div rows`, and
the five-name example in a two-column terminal gives exactly three rows
with the trailing padding trimmed. -/
theorem print_list_layout (termWidth : Nat) (l : List String) (_hne : l ≠ []) :
    (plColumns termWidth l < 2 → print_list termWidth l = l) ∧
    (2 ≤ plColumns termWidth l →
      (print_list termWidth l).length = plRows termWidth l) ∧
    (2 ≤ plColumns termWidth l → ∀ y, y < plRows termWidth l →
      (print_list termWidth l)[y]? =
        some (rstripSpaces (String.intercalate "  "
          ((pySlice l y (plRows termWidth l)).map
            (fun s => ljust s (plMaxlen l)))))) ∧
    (2 ≤ plColumns termWidth l → ∀ i, i < l.length →
      (pySlice l (i % plRows termWidth l)
        (plRows termWidth l))[i / plRows termWidth l]? = l[i]?) ∧
    print_list 14 ["alpha", "b", "gamma", "delta", "e"] =
      ["alpha  delta", "b      e", "gamma"] := by
  refine ⟨?_, ?_, ?_, ?_, by decide⟩
  · intro h
    simp [print_list, h]
  · intro h
    have h2 : ¬ plColumns termWidth l < 2 := by omega
    simp [print_list, h2]
  · intro h y hy
    have h2 : ¬ plColumns termWidth l < 2 := by omega
    simp [print_list, h2, hy]
  · intro h i hi
    have hdiv : i / plRows termWidth l < l.length :=
      Nat.lt_of_le_of_lt (Nat.div_le_self _ _) hi
    rw [pySlice_getElem l _ _ _ hdiv]
    congr 1
    exact Nat.mod_add_div' i (plRows termWidth l)

/-- Witness for C7 at a terminal too narrow for two columns. -/
theorem print_list_layout_w :
    print_list 13 ["alpha", "b", "gamma", "delta", "e"] =
      ["alpha", "b", "gamma", "delta", "e"] :=
  (print_list_layout 13 ["alpha", "b", "gamma", "delta", "e"] (by decide)).1
    (by decide)

/-- C8: invoked with no argument, `cd` targets the entry unit: for any
resolver that maps the absolute name `__main__` to itself regardless of
the relative base, the committed current name is `__main__` whatever the
current location was, and the call succeeds. -/
theorem cd_default_target
    (resolve : String → Option String → Except Fault String)
    (load : String → Except Fault Module) (c : Console) (m : Module)
    (hres : ∀ p, resolve "__main__" p = Except.ok "__main__")
    (hload : load "__main__" = Except.ok m) :
    (cd resolve load c []).1.modulename = some "__main__" ∧
      (cd resolve load c []).2.2 = none := by
  simp [cd, cdTarget, hres, hload, Console.add_helper]

/-- Witness for C8 at the concrete fixture resolver and loader. -/
theorem cd_default_target_w :
    (cd resolveW loadW consoleW []).1.modulename = some "__main__" ∧
      (cd resolveW loadW consoleW []).2.2 = none :=
  cd_default_target resolveW loadW consoleW moduleW (fun _ => rfl) rfl

/-- C9 counterexample: a validation failure of the recognized command
`cd` writes the usage line to the standard stream (its stdout is the
non-empty usage line) while only the arity complaint goes to the error
stream, refuting the claim that all usage-failure output is written to
the error stream. -/
theorem usage_on_stdout_cex :
    (check_args "cd" cdCommandW ["a", "b"]).ok = false ∧
      (check_args "cd" cdCommandW ["a", "b"]).stdout = ["Usage: cd [MODULENAME]"] ∧
      (check_args "cd" cdCommandW ["a", "b"]).stdout ≠ [] ∧
      (check_args "cd" cdCommandW ["a", "b"]).stderr = ["Too many arguments for cd."] :=
  ⟨by decide, by decide, by decide, by decide⟩

/-- C9 amended: on every validation failure of a recognized command the
arity complaint is written to the error stream and the usage line to the
standard stream. -/
theorem check_args_streams (name : String) (cmd : Command) (args : List String)
    (h : (check_args name cmd args).ok = false) :
    (check_args name cmd args).stdout = [usage_line name cmd] ∧
    (check_args name cmd args).stderr =
      [(if args.length < cmd.reqargs.length then "Missing arguments for "
        else "Too many arguments for ") ++ name ++ "."] := by
  revert h
  unfold check_args
  split_ifs with h1 h2 <;> intro h <;> simp_all

/-- Witness for the amended C9 at the concrete `cd` descriptor. -/
theorem check_args_streams_w :
    (check_args "cd" cdCommandW ["a", "b"]).stdout = [usage_line "cd" cdCommandW] ∧
      (check_args "cd" cdCommandW ["a", "b"]).stderr = ["Too many arguments for cd."] := by
  have h := check_args_streams "cd" cdCommandW ["a", "b"] (by decide)
  refine ⟨h.1, ?_⟩
  rw [h.2]
  decide

/-- C10: the evaluation namespace is the current module namespace: the
`locals` getter returns exactly the current module dictionary, and the
`locals` setter discards any assigned value, leaving the console
untouched. -/
theorem locals_tracks_module (c : Console) (v : Names) (m : Module)
    (hmod : c.module = some m) :
    Console.setLocals c v = c ∧ Console.locals c = Except.ok m.dict :=
  ⟨rfl, by simp [Console.locals, hmod]⟩

/-- Witness for C10 at the concrete fixture console. -/
theorem locals_tracks_module_w :
    Console.setLocals consoleW [] = consoleW ∧
      Console.locals consoleW = Except.ok [("help", Value.helper 0)] :=
  locals_tracks_module consoleW []
    { name := "pkg.mod", dict := [("help", Value.helper 0)] } rfl

end Bananadbg
